import Mathlib

/-!
Verification of `src/api/commands/compile.ts` (dataform compile orchestration).

We shallowly embed the pure validation logic (`checkDataformJsonValidity`),
the request pre-processing performed by `compile()` (schema-suffix override
mutation, config-file read/parse/merge/validate step), and the asynchronous
race performed by `CompileChildProcess.compile` (worker signals vs. a
timeout timer, with a `finally` cleanup block), and prove the specified
properties about them.

JS objects holding string fields are modelled as association lists
`List (String × String)` (keys unique in practice; lookup takes the first
binding, matching JS object semantics where keys are unique).
Asynchronous behaviour is modelled by an explicit trace of timed signals
emitted by the child process, ordered chronologically.
-/

/-- A flat string-valued JS object, e.g. the parsed `dataform.json`. -/
abbrev JsObject := List (String × String)

/-- `obj[key]` : the value of `key`, if present (JS property lookup). -/
def jsGet (obj : JsObject) (key : String) : Option String :=
  (obj.find? (fun kv => kv.1 = key)).map (fun kv => kv.2)

/-- `key in obj` (JS `in` operator: key presence, regardless of value). -/
def jsHas (obj : JsObject) (key : String) : Bool :=
  obj.any (fun kv => kv.1 = key)

/-- Project config properties that are required (`mandatoryProps`). -/
def mandatoryProps : List String := ["warehouse", "defaultSchema"]

/-- Project config properties that require alphanumeric characters, hyphens or
underscores (`simpleCheckProps`). -/
def simpleCheckProps : List String :=
  ["assertionSchema", "databaseSuffix", "schemaSuffix", "tablePrefix", "defaultSchema"]

/-- The regex `^[a-zA-Z_0-9\-]*$` : every character is alphanumeric, an
underscore or a hyphen (the empty string passes). Stated over the string's
character list. -/
def simplePatternOk (s : String) : Bool :=
  s.data.all (fun c => c.isAlphanum || c = '_' || c = '-')

/-- JS truthiness of an optional string property value: present and nonempty.
(`undefined` and the empty string are falsy; these are the only falsy values
a string-valued property can take.) -/
def truthy : Option String → Bool
  | some s => s ≠ ""
  | none => false

/-- The error message built by `invalidWarehouseProp` in
`checkDataformJsonValidity`, naming the offending value and the allow-list. -/
def warehouseErrorMessage (validWarehouses : List String) (w : String) : String :=
  "Invalid value on property warehouse: " ++ w ++ ". Should be one of: "
    ++ String.intercalate ", " validWarehouses ++ "."

/-- The error message built by `invalidProp`, naming the field and its value. -/
def simpleErrorMessage (prop value : String) : String :=
  "Invalid value on property " ++ prop ++ ": " ++ value
    ++ ". Should only contain alphanumeric characters, underscores and/or hyphens."

/-- The error message built by `missingMandatoryProp`, naming the field. -/
def missingErrorMessage (prop : String) : String :=
  "Missing mandatory property: " ++ prop ++ "."

/-- `invalidWarehouseProp()` : `dataformJsonParsed.warehouse &&
!validWarehouses.includes(dataformJsonParsed.warehouse) ? message : null`.
`validWarehouses` is imported from `df/api/dbadapters` (not part of this
file), so the validator is parametric in it. -/
def invalidWarehouseProp (validWarehouses : List String) (obj : JsObject) :
    Option String :=
  match jsGet obj "warehouse" with
  | some w =>
      if w ≠ "" && !(validWarehouses.contains w) then
        some (warehouseErrorMessage validWarehouses w)
      else none
  | none => none

/-- `invalidProp()` : the first prop of `simpleCheckProps` that is present but
fails the pattern, turned into an error message. -/
def invalidProp (obj : JsObject) : Option String :=
  match simpleCheckProps.find? (fun p =>
      jsHas obj p && !(simplePatternOk ((jsGet obj p).getD ""))) with
  | some p => some (simpleErrorMessage p ((jsGet obj p).getD ""))
  | none => none

/-- `missingMandatoryProp()` : the first mandatory prop not present, turned
into an error message. -/
def missingMandatoryProp (obj : JsObject) : Option String :=
  match mandatoryProps.find? (fun p => !(jsHas obj p)) with
  | some p => some (missingErrorMessage p)
  | none => none

/-- `checkDataformJsonValidity` : `invalidWarehouseProp() || invalidProp() ||
missingMandatoryProp()`; throws the message when non-null. We return
`some message` for a throw and `none` for a successful pass. (JS `||` on
these values is faithful to `Option.orElse` because no produced message is
the empty string.) -/
def checkDataformJsonValidity (validWarehouses : List String) (obj : JsObject) :
    Option String :=
  match invalidWarehouseProp validWarehouses obj with
  | some m => some m
  | none =>
    match invalidProp obj with
    | some m => some m
    | none => missingMandatoryProp obj

/-! ## The child-process race (`CompileChildProcess.compile`) -/

/-- A signal emitted by the child process, as observed by the listeners
registered in `CompileChildProcess.compile`:
* `message payload` — a `"message"` event whose payload is a string
  (`typeof messageOrError === "string"`), which resolves the promise;
* `messageError m` — a `"message"` event whose payload is not a string
  (an error object, coerced by `coerceAsError`), which rejects;
* `errorEvent m` — an `"error"` event (coerced by `coerceAsError`), which
  rejects;
* `close exitCode` — a `"close"` event; `exitCode` is a number or `null`
  (modelled as `Option Int`, `none` for `null`); it rejects iff
  `exitCode !== 0`. -/
inductive ChildSignal where
  | message (payload : String)
  | messageError (m : String)
  | errorEvent (m : String)
  | close (exitCode : Option Int)
deriving DecidableEq, Repr

/-- A signal together with the (virtual) time at which it fires, in
milliseconds from the start of the `compile` call. A run of the child
process is a chronologically ordered list of `TimedSignal`s. -/
structure TimedSignal where
  time : Nat
  signal : ChildSignal
deriving DecidableEq, Repr

/-- How the `close` handler renders the exit code inside its message
(`null` for a signal-terminated process). -/
def exitCodeText : Option Int → String
  | some c => toString c
  | none => "null"

/-- The rejection values produced inside `CompileChildProcess.compile`. -/
inductive ChildError where
  /-- `coerceAsError` applied to an `"error"` event or a non-string
  `"message"` payload. -/
  | workerError (m : String)
  /-- `new Error(...)` from the `"close"` handler on a non-zero exit code. -/
  | processExit (exitCode : Option Int)
  /-- `new CompilationTimeoutError("Compilation timed out")`. -/
  | compilationTimeout
deriving DecidableEq, Repr

/-- The message carried by each rejection value. -/
def childErrorMessage : ChildError → String
  | .workerError m => m
  | .processExit c =>
      "Compilation child process exited with exit code " ++ exitCodeText c ++ "."
  | .compilationTimeout => "Compilation timed out"

/-- How a single signal settles the `compileInChildProcess` promise, if at
all: `message` with a string payload resolves; `message` with an error
payload and `error` events reject; `close` rejects iff the exit code is
non-zero (`exitCode !== 0`, which also holds for `null`); a `close` with
exit code `0` does not settle the promise. -/
def settlementOf : ChildSignal → Option (Except ChildError String)
  | .message payload => some (.ok payload)
  | .messageError m => some (.error (.workerError m))
  | .errorEvent m => some (.error (.workerError m))
  | .close exitCode =>
      if exitCode ≠ some 0 then some (.error (.processExit exitCode)) else none

/-- The first settlement of the `compileInChildProcess` promise along a
trace: a promise settles at most once, so the first signal that resolves or
rejects determines the promise's fate and all later signals are ignored. -/
def firstSettlement : List TimedSignal → Option (Nat × Except ChildError String)
  | [] => none
  | ts :: rest =>
    match settlementOf ts.signal with
    | some s => some (ts.time, s)
    | none => firstSettlement rest

/-- `compileConfig.timeoutMillis || 5000` : the duration handed to
`setTimeout`. `timeoutMillis` is an optional number; JS `||` substitutes
the default for every falsy value, so both an absent field and `0` yield
`5000`. -/
def effectiveTimeout : Option Nat → Nat
  | none => 5000
  | some n => if n = 0 then 5000 else n

/-- The settlement of `Promise.race([timeout, compileInChildProcess])`
followed by `await compileInChildProcess`: if the child promise settles
strictly before the timer fires, its settlement is the result; otherwise
the timer's rejection (`CompilationTimeoutError`) wins. Since both awaits
are on the same once-settled child promise, the value returned on the
success path equals the child promise's resolution. -/
def raceOutcome (timeoutMillis : Option Nat) (trace : List TimedSignal) :
    Except ChildError String :=
  match firstSettlement trace with
  | some (t, s) =>
      if t < effectiveTimeout timeoutMillis then s else .error .compilationTimeout
  | none => .error .compilationTimeout

/-- The state of the `timer` returned by `setTimeout`. -/
inductive TimerStatus where
  | pending
  | fired
  | cleared
deriving DecidableEq, Repr

/-- `clearTimeout(timer)` : cancels a pending timer; a no-op on a timer that
has already fired or been cleared. -/
def clearTimer : TimerStatus → TimerStatus
  | .pending => .cleared
  | .fired => .fired
  | .cleared => .cleared

/-- Whether a settlement is the timeout rejection (the only producer of
`CompilationTimeoutError` is the timer callback). -/
def isTimeoutResult : Except ChildError String → Bool
  | .error .compilationTimeout => true
  | _ => false

/-- The state of the `timer` at the moment the `finally` block runs: it has
fired exactly when the race was settled by the timeout rejection, and is
still pending otherwise (the `finally` block runs as soon as the race
settles, before the deadline elapses on non-timeout paths). -/
def timerAtCleanup (timeoutMillis : Option Nat) (trace : List TimedSignal) :
    TimerStatus :=
  if isTimeoutResult (raceOutcome timeoutMillis trace) then .fired
  else .pending

/-- The child process as seen through `childProcess.killed` (set by `kill()`)
and whether the underlying OS process has exited on its own. -/
structure WorkerState where
  exited : Bool
  killed : Bool
deriving DecidableEq, Repr

/-- The worker is running iff it has neither exited nor been killed. -/
def workerRunning (w : WorkerState) : Bool :=
  !w.exited && !w.killed

/-- `childProcess.kill("SIGKILL")` : forcibly terminates the process and sets
`killed`; idempotent and safe on an already-dead process. -/
def killWorker (w : WorkerState) : WorkerState :=
  { w with killed := true }

/-- The `finally` block of `CompileChildProcess.compile`:
`if (!this.childProcess.killed) { this.childProcess.kill("SIGKILL"); }`
then `if (timer) { clearTimeout(timer); }` (the `timer` variable is always
assigned, since the `Promise` executor runs synchronously, so the clear
always happens). -/
def finallyCleanup (w : WorkerState) (t : TimerStatus) :
    WorkerState × TimerStatus :=
  (if !w.killed then killWorker w else w, clearTimer t)

/-- `CompileChildProcess.compile(compileConfig)` as a whole, given the trace
of child-process signals and the worker state `w` at the moment the race
settles: computes the race's settlement (the `try` body — either the value
returned or the error thrown), then runs the `finally` block
unconditionally, on the throwing paths as well as the returning one.
Returns (settlement, worker state after cleanup, timer state after
cleanup). -/
def compileChildProcess (timeoutMillis : Option Nat) (trace : List TimedSignal)
    (w : WorkerState) :
    Except ChildError String × WorkerState × TimerStatus :=
  let result := raceOutcome timeoutMillis trace
  let cleaned := finallyCleanup w (timerAtCleanup timeoutMillis trace)
  (result, cleaned.1, cleaned.2)

/-! ## The top-level `compile()` function -/

/-- `dataform.ICompileConfig`, restricted to the fields `compile()` reads or
writes. `projectConfigOverride` is a flat object of project-config fields. -/
structure ICompileConfig where
  projectDir : String
  schemaSuffixOverride : Option String
  projectConfigOverride : Option JsObject
  timeoutMillis : Option Nat
  useMain : Bool
deriving DecidableEq, Repr

/-- The object literal `{ schemaSuffix: compileConfig.schemaSuffixOverride,
...compileConfig.projectConfigOverride }` : `schemaSuffix` is written first,
then the existing override is spread over it, so an existing
`schemaSuffix` binding overwrites the override value. (When the existing
object already has the key, the spread result is extensionally the existing
object, which our first-binding-wins association lists render as `obj`
itself.) -/
def spreadWithSchemaSuffix (s : String) (existing : Option JsObject) : JsObject :=
  match existing with
  | none => [("schemaSuffix", s)]
  | some obj => if jsHas obj "schemaSuffix" then obj else ("schemaSuffix", s) :: obj

/-- The in-place update of the caller's request performed at the top of
`compile()` : `if (compileConfig.schemaSuffixOverride) {
compileConfig.projectConfigOverride = { schemaSuffix: ...,
...compileConfig.projectConfigOverride }; }`. The result is the state of
the caller's `compileConfig` object from that point on (including after
`compile()` returns, since the assignment mutates the caller's object). -/
def applySchemaSuffixOverride (c : ICompileConfig) : ICompileConfig :=
  if truthy c.schemaSuffixOverride then
    { c with
      projectConfigOverride :=
        some (spreadWithSchemaSuffix (c.schemaSuffixOverride.getD "")
          c.projectConfigOverride) }
  else c

/-- `deepmerge(projectConfig, compileConfig.projectConfigOverride || {})` on
flat string-valued objects: the key set is the union and override values
win on common keys. -/
def deepmergeFlat (base override : JsObject) : JsObject :=
  base.filter (fun kv => !(jsHas override kv.1)) ++ override

/-- The errors `compile()` can throw. -/
inductive TopError where
  /-- `new ErrorWithCause(message, cause)` wrapping a config-file read/parse
  error or a `checkDataformJsonValidity` throw; `cause` is the message of
  the underlying error `e`. -/
  | invalidConfig (message cause : String)
  /-- A rejection propagated from `CompileChildProcess.compile`. -/
  | child (e : ChildError)
deriving DecidableEq, Repr

/-- The wrapped message of the `ErrorWithCause` thrown by the `catch` block
around the config-file read/parse/validate step. -/
def wrapConfigError (m : String) : String :=
  "Compilation failed. ProjectConfig (\x27dataform.json\x27) is invalid: " ++ m

/-- `compile(compileConfig)` : applies the schema-suffix override mutation,
then reads and parses `dataform.json` (`fileContents` is the outcome of
`fs.readFileSync` + `JSON.parse`: `.ok` with the parsed object, or `.error`
with the thrown error's message), merges the override over it and validates
the result, wrapping any error from that step in an `ErrorWithCause` —
all before any worker process is forked. Only when that step succeeds does
it fork a `CompileChildProcess` and run its `compile` race over `trace`.
The second component records whether a worker process was spawned.
(Decoding of the payload into a `CompiledGraph` is an external collaborator
and is not modelled; the payload string is returned as-is.) -/
def compileTop (validWarehouses : List String) (compileConfig : ICompileConfig)
    (fileContents : Except String JsObject) (trace : List TimedSignal)
    (w : WorkerState) : Except TopError String × Bool :=
  let cfg := applySchemaSuffixOverride compileConfig
  match fileContents with
  | .error m => (.error (.invalidConfig (wrapConfigError m) m), false)
  | .ok projectConfig =>
    match checkDataformJsonValidity validWarehouses
        (deepmergeFlat projectConfig (cfg.projectConfigOverride.getD [])) with
    | some m => (.error (.invalidConfig (wrapConfigError m) m), false)
    | none =>
      match (compileChildProcess cfg.timeoutMillis trace w).1 with
      | .ok payload => (.ok payload, true)
      | .error e => (.error (.child e), true)

/-! ## Helper lemmas -/

theorem jsHas_of_jsGet {obj : JsObject} {k v : String} (h : jsGet obj k = some v) :
    jsHas obj k = true := by
  induction obj with
  | nil => simp [jsGet] at h
  | cons kv rest ih =>
    by_cases hk : kv.1 = k
    · simp [jsHas, hk]
    · have h' : jsGet rest k = some v := by
        simpa [jsGet, List.find?_cons, hk] using h
      simpa [jsHas, hk] using ih h'

theorem firstSettlement_cons_some {a : TimedSignal} {s : Except ChildError String}
    (h : settlementOf a.signal = some s) (l : List TimedSignal) :
    firstSettlement (a :: l) = some (a.time, s) := by
  simp [firstSettlement, h]

theorem firstSettlement_cons_none {a : TimedSignal}
    (h : settlementOf a.signal = none) (l : List TimedSignal) :
    firstSettlement (a :: l) = firstSettlement l := by
  simp [firstSettlement, h]

theorem firstSettlement_append_allNone {pre : List TimedSignal}
    (h : ∀ x ∈ pre, settlementOf x.signal = none) (l : List TimedSignal) :
    firstSettlement (pre ++ l) = firstSettlement l := by
  induction pre with
  | nil => rfl
  | cons a pre ih =>
    rw [List.cons_append, firstSettlement_cons_none (h a (by simp))]
    exact ih (fun x hx => h x (by simp [hx]))

theorem firstSettlement_mem {trace : List TimedSignal} {t : Nat}
    {s : Except ChildError String} (h : firstSettlement trace = some (t, s)) :
    ∃ e ∈ trace, e.time = t ∧ settlementOf e.signal = some s := by
  induction trace with
  | nil => simp [firstSettlement] at h
  | cons a rest ih =>
    cases hs : settlementOf a.signal with
    | none =>
      rw [firstSettlement_cons_none hs] at h
      obtain ⟨e, he, rfl, hse⟩ := ih h
      exact ⟨e, by simp [he], rfl, hse⟩
    | some s0 =>
      rw [firstSettlement_cons_some hs] at h
      obtain ⟨rfl, rfl⟩ : a.time = t ∧ s0 = s := by
        simpa using h
      exact ⟨a, by simp, rfl, hs⟩

theorem finallyCleanup_not_running (w : WorkerState) (t : TimerStatus) :
    workerRunning (finallyCleanup w t).1 = false := by
  cases hw : w.killed <;>
    simp [finallyCleanup, killWorker, workerRunning, hw]

theorem finallyCleanup_timer_not_pending (w : WorkerState) (t : TimerStatus) :
    (finallyCleanup w t).2 ≠ TimerStatus.pending := by
  cases t <;> simp [finallyCleanup, clearTimer]

/-! ## The claims -/

/-- Claim C1: for every `compile()` call that reaches the worker stage, on
every exit path — successful response, worker error, non-zero process exit,
timeout, or an exception raised while awaiting the race (every value the
first component of `compileChildProcess` can take, `.ok` or `.error`) —
the timeout timer is cleared and the worker process is terminated: after
the `finally` block the worker is not running and the timer is no longer
pending, for every timeout configuration, every signal trace and every
worker state at cleanup time. -/
theorem compile_cleanup_on_every_exit_path (timeoutMillis : Option Nat)
    (trace : List TimedSignal) (w : WorkerState) :
    workerRunning (compileChildProcess timeoutMillis trace w).2.1 = false ∧
    (compileChildProcess timeoutMillis trace w).2.2 ≠ TimerStatus.pending :=
  ⟨finallyCleanup_not_running w (timerAtCleanup timeoutMillis trace),
   finallyCleanup_timer_not_pending w (timerAtCleanup timeoutMillis trace)⟩

/-- Claim C2: the first of {response, error, non-zero exit, timeout} to
settle determines the single outcome of the call: a trace whose first
settling signal is `e` (all signals before it settle nothing) yields
exactly the same `raceOutcome` whatever signals arrive after `e` — the
promise is settled at `(e.time, s)` and later signals are discarded.
Exactly one outcome is produced per call since `raceOutcome` is a total
function of the trace. -/
theorem first_settlement_wins (timeoutMillis : Option Nat)
    (pre : List TimedSignal) (e : TimedSignal) (rest : List TimedSignal)
    (s : Except ChildError String) (hse : settlementOf e.signal = some s)
    (hpre : ∀ x ∈ pre, settlementOf x.signal = none) :
    raceOutcome timeoutMillis (pre ++ e :: rest) =
      raceOutcome timeoutMillis (pre ++ [e]) ∧
    firstSettlement (pre ++ e :: rest) = some (e.time, s) := by
  have h1 : firstSettlement (pre ++ e :: rest) = some (e.time, s) := by
    rw [firstSettlement_append_allNone hpre, firstSettlement_cons_some hse]
  have h2 : firstSettlement (pre ++ [e]) = some (e.time, s) := by
    rw [firstSettlement_append_allNone hpre, firstSettlement_cons_some hse]
  exact ⟨by simp [raceOutcome, h1, h2], h1⟩

/-- Witness for C2: a `close 0` signal at 5ms settles nothing, the response
at 10ms settles the promise, and a later error signal at 20ms is
discarded: the outcome equals that of the trace without the late signal. -/
theorem first_settlement_wins_witness :
    raceOutcome (some 100)
        [⟨5, .close (some 0)⟩, ⟨10, .message "ok"⟩, ⟨20, .errorEvent "boom"⟩] =
      raceOutcome (some 100) [⟨5, .close (some 0)⟩, ⟨10, .message "ok"⟩] ∧
    firstSettlement
        [⟨5, .close (some 0)⟩, ⟨10, .message "ok"⟩, ⟨20, .errorEvent "boom"⟩] =
      some (10, .ok "ok") :=
  first_settlement_wins (some 100) [⟨5, .close (some 0)⟩] ⟨10, .message "ok"⟩
    [⟨20, .errorEvent "boom"⟩] (.ok "ok") rfl
    (by intro x hx; simp at hx; subst hx; rfl)

/-- Claim C3: when the worker emits no response, error or exit signal within
the configured duration (`timeoutMillis || 5000`, modelled by
`effectiveTimeout`, which is `5000` when the field is unspecified), the
call fails with the distinguished `CompilationTimeoutError` rejection and
the worker process is terminated afterward. -/
theorem timeout_when_no_signal_in_time (timeoutMillis : Option Nat)
    (trace : List TimedSignal) (w : WorkerState)
    (h : ∀ e ∈ trace, effectiveTimeout timeoutMillis ≤ e.time) :
    (compileChildProcess timeoutMillis trace w).1 =
      .error .compilationTimeout ∧
    workerRunning (compileChildProcess timeoutMillis trace w).2.1 = false ∧
    effectiveTimeout none = 5000 := by
  have hro : raceOutcome timeoutMillis trace = .error .compilationTimeout := by
    unfold raceOutcome
    cases hfs : firstSettlement trace with
    | none => rfl
    | some ts =>
      obtain ⟨t, s⟩ := ts
      obtain ⟨e, he, rfl, -⟩ := firstSettlement_mem hfs
      simp [Nat.not_lt.mpr (h e he)]
  exact ⟨hro,
    finallyCleanup_not_running w (timerAtCleanup timeoutMillis trace), rfl⟩

/-- Witness for C3: a worker that answers at 10000ms against a 50ms
configured timeout yields the `CompilationTimeoutError` rejection, with
the worker not running afterward. -/
theorem timeout_when_no_signal_in_time_witness :
    (compileChildProcess (some 50) [⟨10000, .message "late"⟩]
        ⟨false, false⟩).1 = .error .compilationTimeout ∧
    workerRunning ((compileChildProcess (some 50) [⟨10000, .message "late"⟩]
        ⟨false, false⟩)).2.1 = false ∧
    effectiveTimeout none = 5000 :=
  timeout_when_no_signal_in_time (some 50) [⟨10000, .message "late"⟩]
    ⟨false, false⟩ (by intro e he; simp at he; subst he; decide)

/-- Claim C4: a worker exit with code 0 arriving without a prior response or
error signal settles nothing — the race outcome over a trace containing it
is the race outcome over the trace without it; only a non-zero exit code
(absent a prior settling signal) produces the process-exit rejection,
whose message names the exit code. -/
theorem clean_exit_not_failure (timeoutMillis : Option Nat)
    (pre : List TimedSignal) (t : Nat) (exitCode : Option Int)
    (rest : List TimedSignal) (w : WorkerState)
    (hpre : ∀ x ∈ pre, settlementOf x.signal = none) :
    raceOutcome timeoutMillis (pre ++ ⟨t, .close (some 0)⟩ :: rest) =
      raceOutcome timeoutMillis (pre ++ rest) ∧
    (exitCode ≠ some 0 → t < effectiveTimeout timeoutMillis →
      (compileChildProcess timeoutMillis (pre ++ [⟨t, .close exitCode⟩]) w).1 =
        .error (.processExit exitCode) ∧
      childErrorMessage (.processExit exitCode) =
        "Compilation child process exited with exit code "
          ++ exitCodeText exitCode ++ ".") := by
  constructor
  · have hz : settlementOf (ChildSignal.close (some 0)) = none := by
      simp [settlementOf]
    have h1 : firstSettlement (pre ++ ⟨t, .close (some 0)⟩ :: rest) =
        firstSettlement (pre ++ rest) := by
      rw [firstSettlement_append_allNone hpre, firstSettlement_cons_none hz,
        firstSettlement_append_allNone hpre]
    unfold raceOutcome
    rw [h1]
  · intro hc hlt
    have hs : settlementOf (ChildSignal.close exitCode) =
        some (.error (.processExit exitCode)) := by
      simp [settlementOf, hc]
    have hfs : firstSettlement (pre ++ [⟨t, .close exitCode⟩]) =
        some (t, .error (.processExit exitCode)) := by
      rw [firstSettlement_append_allNone hpre, firstSettlement_cons_some hs]
    exact ⟨by
      show raceOutcome timeoutMillis (pre ++ [⟨t, .close exitCode⟩]) = _
      simp [raceOutcome, hfs, hlt], rfl⟩

/-- Witness for C4: after a non-settling `close 0`, the trace behaves as if
the clean exit were absent; and a lone exit with code 7 at 10ms against a
100ms deadline rejects with the process-exit error naming code 7. -/
theorem clean_exit_not_failure_witness :
    (raceOutcome (some 100) [⟨5, .close (some 0)⟩, ⟨20, .message "m"⟩] =
      raceOutcome (some 100) [⟨20, .message "m"⟩]) ∧
    ((compileChildProcess (some 100) [⟨10, .close (some 7)⟩]
        ⟨false, false⟩).1 = .error (.processExit (some 7)) ∧
      childErrorMessage (.processExit (some 7)) =
        "Compilation child process exited with exit code 7.") := by
  have h := clean_exit_not_failure (some 100) [] 5 (some 7)
    [⟨20, .message "m"⟩] ⟨false, false⟩ (by intro x hx; simp at hx)
  have h2 := clean_exit_not_failure (some 100) [] 10 (some 7) []
    ⟨false, false⟩ (by intro x hx; simp at hx)
  exact ⟨h.1, h2.2 (by decide) (by decide)⟩

/-- Claim C5: configuration errors surface before any worker is spawned.
If reading/parsing `dataform.json` fails, or the merged project config
fails `checkDataformJsonValidity`, then `compile()` throws the
`ErrorWithCause` wrapping the underlying message and no worker process is
spawned (second component `false`): such errors never reach a worker. -/
theorem config_errors_before_spawn (validWarehouses : List String)
    (cfg : ICompileConfig) (fileContents : Except String JsObject)
    (trace : List TimedSignal) (w : WorkerState) :
    (∀ m, fileContents = .error m →
      compileTop validWarehouses cfg fileContents trace w =
        (.error (.invalidConfig (wrapConfigError m) m), false)) ∧
    (∀ projectConfig m, fileContents = .ok projectConfig →
      checkDataformJsonValidity validWarehouses
          (deepmergeFlat projectConfig
            ((applySchemaSuffixOverride cfg).projectConfigOverride.getD []))
        = some m →
      compileTop validWarehouses cfg fileContents trace w =
        (.error (.invalidConfig (wrapConfigError m) m), false)) := by
  constructor
  · rintro m rfl
    rfl
  · rintro projectConfig m rfl hcheck
    simp [compileTop, hcheck]

/-- Witness for C5: an unreadable `dataform.json` and an invalid warehouse
value each surface as the wrapped config error with no worker spawned. -/
theorem config_errors_before_spawn_witness :
    compileTop ["bigquery"] ⟨"p", none, none, none, false⟩
        (.error "ENOENT") [] ⟨false, false⟩ =
      (.error (.invalidConfig (wrapConfigError "ENOENT") "ENOENT"), false) ∧
    compileTop ["bigquery"] ⟨"p", none, none, none, false⟩
        (.ok [("warehouse", "oracle"), ("defaultSchema", "s")]) []
        ⟨false, false⟩ =
      (.error (.invalidConfig
        (wrapConfigError (warehouseErrorMessage ["bigquery"] "oracle"))
        (warehouseErrorMessage ["bigquery"] "oracle")), false) :=
  ⟨(config_errors_before_spawn ["bigquery"] ⟨"p", none, none, none, false⟩
      (.error "ENOENT") [] ⟨false, false⟩).1 "ENOENT" rfl,
   (config_errors_before_spawn ["bigquery"] ⟨"p", none, none, none, false⟩
      (.ok [("warehouse", "oracle"), ("defaultSchema", "s")]) []
      ⟨false, false⟩).2 [("warehouse", "oracle"), ("defaultSchema", "s")]
      (warehouseErrorMessage ["bigquery"] "oracle") rfl rfl⟩

/-- The warehouse rule fires (and short-circuits the whole validation) on a
present, nonempty warehouse value outside the allow-list. -/
theorem check_warehouse_fires (validWarehouses : List String) (obj : JsObject)
    (wv : String) (h1 : jsGet obj "warehouse" = some wv) (h2 : wv ≠ "")
    (h3 : validWarehouses.contains wv = false) :
    checkDataformJsonValidity validWarehouses obj =
      some (warehouseErrorMessage validWarehouses wv) := by
  have h3' : wv ∉ validWarehouses := by simpa using h3
  have hw : invalidWarehouseProp validWarehouses obj =
      some (warehouseErrorMessage validWarehouses wv) := by
    simp [invalidWarehouseProp, h1, h2, h3']
  simp [checkDataformJsonValidity, hw]

/-- Claim C6: the validator's rules are checked in the fixed precedence
order warehouse allow-list → simple-pattern fields → mandatory-field
presence, and the first violated rule determines the single error message:
a firing warehouse rule decides the message regardless of the other rules;
with the warehouse rule passing, a firing simple-pattern rule decides the
message; with both passing, the first missing mandatory field decides the
message, naming that field. -/
theorem validator_precedence (validWarehouses : List String) (obj : JsObject)
    (wv m p : String) :
    (jsGet obj "warehouse" = some wv → wv ≠ "" →
      validWarehouses.contains wv = false →
      checkDataformJsonValidity validWarehouses obj =
        some (warehouseErrorMessage validWarehouses wv)) ∧
    (invalidWarehouseProp validWarehouses obj = none →
      invalidProp obj = some m →
      checkDataformJsonValidity validWarehouses obj = some m) ∧
    (invalidWarehouseProp validWarehouses obj = none →
      invalidProp obj = none →
      mandatoryProps.find? (fun q => !(jsHas obj q)) = some p →
      checkDataformJsonValidity validWarehouses obj =
        some (missingErrorMessage p)) := by
  refine ⟨check_warehouse_fires validWarehouses obj wv, ?_, ?_⟩
  · intro h1 h2
    simp [checkDataformJsonValidity, h1, h2]
  · intro h1 h2 h3
    simp [checkDataformJsonValidity, h1, h2, missingMandatoryProp, h3]

/-- Witness for C6: on a config violating both the warehouse rule and the
simple-pattern rule, the warehouse message wins; on a config violating
both the simple-pattern rule and missing nothing else, the simple-pattern
message wins over none; and a config missing `defaultSchema` (violating no
earlier rule) fails naming `defaultSchema`. -/
theorem validator_precedence_witness :
    checkDataformJsonValidity ["bigquery"]
        [("warehouse", "oracle"), ("defaultSchema", "a b")] =
      some (warehouseErrorMessage ["bigquery"] "oracle") ∧
    checkDataformJsonValidity ["bigquery"]
        [("warehouse", "bigquery"), ("defaultSchema", "a b")] =
      some (simpleErrorMessage "defaultSchema" "a b") ∧
    checkDataformJsonValidity ["bigquery"] [("warehouse", "bigquery")] =
      some (missingErrorMessage "defaultSchema") :=
  ⟨(validator_precedence ["bigquery"]
      [("warehouse", "oracle"), ("defaultSchema", "a b")] "oracle" "" "").1
      rfl (by decide) rfl,
   (validator_precedence ["bigquery"]
      [("warehouse", "bigquery"), ("defaultSchema", "a b")] ""
      (simpleErrorMessage "defaultSchema" "a b") "").2.1 rfl (by decide),
   (validator_precedence ["bigquery"] [("warehouse", "bigquery")] "" ""
      "defaultSchema").2.2 rfl rfl rfl⟩

/-- Counterexample to C7 as stated: the empty string is a warehouse value
outside the allow-list, yet validation raises no error on a config whose
warehouse field holds the empty string — the allow-list check is skipped
on the falsy value, so not every out-of-allow-list value fails. -/
theorem warehouse_empty_escapes_allowlist :
    (["bigquery"].contains "") = false ∧
    checkDataformJsonValidity ["bigquery"]
      [("warehouse", ""), ("defaultSchema", "s")] = none :=
  ⟨rfl, rfl⟩

/-- Claim C7 amended: for all configs whose warehouse field has a *nonempty*
value outside the fixed allow-list, validation fails with the message
naming the offending value and listing the allow-list; for all configs
with warehouse absent, the warehouse check never fires. -/
theorem warehouse_allowlist_check (validWarehouses : List String)
    (obj : JsObject) (wv : String) :
    (jsGet obj "warehouse" = some wv → wv ≠ "" →
      validWarehouses.contains wv = false →
      checkDataformJsonValidity validWarehouses obj =
        some (warehouseErrorMessage validWarehouses wv)) ∧
    (jsGet obj "warehouse" = none →
      invalidWarehouseProp validWarehouses obj = none) :=
  ⟨check_warehouse_fires validWarehouses obj wv,
   fun h => by simp [invalidWarehouseProp, h]⟩

/-- Witness for C7 (amended): the out-of-allow-list value "oracle" fails
with the message naming it and the allow-list; with warehouse absent the
warehouse rule yields nothing. -/
theorem warehouse_allowlist_check_witness :
    checkDataformJsonValidity ["bigquery"]
        [("warehouse", "oracle"), ("defaultSchema", "s")] =
      some (warehouseErrorMessage ["bigquery"] "oracle") ∧
    invalidWarehouseProp ["bigquery"] [("defaultSchema", "s")] = none :=
  ⟨(warehouse_allowlist_check ["bigquery"]
      [("warehouse", "oracle"), ("defaultSchema", "s")] "oracle").1
      rfl (by decide) rfl,
   (warehouse_allowlist_check ["bigquery"] [("defaultSchema", "s")] "").2 rfl⟩

/-- Claim C9: on every config whose warehouse field is present with the
empty string as its value, the allow-list check is skipped (it yields no
error whatever the allow-list, even though the empty string is not in it),
and since the mandatory-field check tests only presence of the key — not
non-emptiness of the value — the whole validation succeeds as soon as
`defaultSchema` is present and the simple-pattern fields are valid. -/
theorem empty_warehouse_passes (validWarehouses : List String)
    (obj : JsObject) (h1 : jsGet obj "warehouse" = some "")
    (h2 : jsHas obj "defaultSchema" = true) (h3 : invalidProp obj = none) :
    invalidWarehouseProp validWarehouses obj = none ∧
    checkDataformJsonValidity validWarehouses obj = none := by
  have hw : invalidWarehouseProp validWarehouses obj = none := by
    simp [invalidWarehouseProp, h1]
  have hwh : jsHas obj "warehouse" = true := jsHas_of_jsGet h1
  have hm : missingMandatoryProp obj = none := by
    simp [missingMandatoryProp, mandatoryProps, List.find?_cons, hwh, h2]
  exact ⟨hw, by simp [checkDataformJsonValidity, hw, h3, hm]⟩

/-- Witness for C9: `warehouse` and `defaultSchema` both present with empty
values (the empty string is not in the allow-list and passes the pattern)
validate successfully. -/
theorem empty_warehouse_passes_witness :
    invalidWarehouseProp ["bigquery"]
      [("warehouse", ""), ("defaultSchema", "")] = none ∧
    checkDataformJsonValidity ["bigquery"]
      [("warehouse", ""), ("defaultSchema", "")] = none :=
  empty_warehouse_passes ["bigquery"]
    [("warehouse", ""), ("defaultSchema", "")] rfl rfl (by decide)

/-- Counterexample to C8 as stated: `compile()` does mutate the caller's
request. With `schemaSuffixOverride` set and no existing override, the
assignment `compileConfig.projectConfigOverride = { schemaSuffix: ... }`
leaves the caller's object different from the one passed in. -/
theorem compile_mutates_request :
    applySchemaSuffixOverride ⟨"proj", some "suffix1", none, none, false⟩ ≠
      ⟨"proj", some "suffix1", none, none, false⟩ := by
  decide

/-- Claim C8 amended: `compile()` leaves the caller's request unmutated
except in exactly one case — when `schemaSuffixOverride` is truthy
(present and nonempty), it reassigns `projectConfigOverride` to the spread
`{ schemaSuffix: schemaSuffixOverride, ...projectConfigOverride }` (an
existing `schemaSuffix` binding taking precedence); no other field of the
request is ever written. -/
theorem request_mutation_characterised (cfg : ICompileConfig) :
    (truthy cfg.schemaSuffixOverride = false →
      applySchemaSuffixOverride cfg = cfg) ∧
    (∀ s, cfg.schemaSuffixOverride = some s → s ≠ "" →
      applySchemaSuffixOverride cfg =
        { cfg with
          projectConfigOverride := some (spreadWithSchemaSuffix s cfg.projectConfigOverride) }) := by
  constructor
  · intro h
    simp [applySchemaSuffixOverride, h]
  · intro s hs hne
    have ht : truthy cfg.schemaSuffixOverride = true := by
      simp [truthy, hs, hne]
    unfold applySchemaSuffixOverride
    rw [ht]
    simp [hs]

/-- Witness for C8 (amended): a request without a schema-suffix override is
returned unchanged; one with `schemaSuffixOverride = "sfx"` and no
existing override ends with `projectConfigOverride` set to
`{ schemaSuffix: "sfx" }`. -/
theorem request_mutation_characterised_witness :
    applySchemaSuffixOverride ⟨"p", none, none, none, false⟩ =
      ⟨"p", none, none, none, false⟩ ∧
    applySchemaSuffixOverride ⟨"p", some "sfx", none, none, false⟩ =
      ⟨"p", some "sfx", some [("schemaSuffix", "sfx")], none, false⟩ :=
  ⟨(request_mutation_characterised ⟨"p", none, none, none, false⟩).1 rfl,
   (request_mutation_characterised ⟨"p", some "sfx", none, none, false⟩).2
     "sfx" rfl (by decide)⟩

/-- Claim C10: a configured `timeoutMillis` of `0` does not mean an
immediate timeout: `0` is falsy in `timeoutMillis || 5000`, so the 5000ms
default is substituted exactly as for an unspecified value, and the whole
child-process race behaves identically under `some 0` and `none`. -/
theorem zero_timeout_uses_default :
    effectiveTimeout (some 0) = 5000 ∧ effectiveTimeout none = 5000 ∧
    ∀ (trace : List TimedSignal) (w : WorkerState),
      compileChildProcess (some 0) trace w =
        compileChildProcess none trace w := by
  refine ⟨rfl, rfl, fun trace w => ?_⟩
  rfl
